import Mathlib

/-!
Shallow embedding of `plugin/python/dbgp.py` (vdebug): the DBGP response
objects, the `Api` transaction engine and the `Connection` transport.

Python strings are modelled as Lean `String` (payloads here are byte
strings of ASCII text); the socket byte stream is a `List Char`.
Exceptions are modelled with `Except`: a constructor or method that can
raise returns `Except DbgpException α`.
-/

namespace Dbgp

/-- The NUL byte used by the wire protocol. -/
def nul : Char := Char.ofNat 0

/-! ### Model of `xml.etree.ElementTree.Element`

Only the parts the dbgp module uses: tag, attributes, the text before the
first child, and the list of child elements (tail text is never read by
the module and is discarded by the parser). -/

inductive Element where
  | mk : String → List (String × String) → Option String → List Element → Element

def Element.tag : Element → String
  | .mk t _ _ _ => t

def Element.attrib : Element → List (String × String)
  | .mk _ a _ _ => a

/-- `Element.text` of ElementTree: the text preceding the first child,
`None` when empty. -/
def Element.textOf : Element → Option String
  | .mk _ _ tx _ => tx

def Element.children : Element → List Element
  | .mk _ _ _ c => c

/-- `element.get(key)`: attribute lookup, `None` when absent. -/
def Element.get (e : Element) (key : String) : Option String :=
  (e.attrib.find? (fun p => p.1 == key)).map Prod.snd

/-- `element.find(tag)`: first direct child with the given tag, `None`
when absent. -/
def Element.find (e : Element) (tag : String) : Option Element :=
  e.children.find? (fun c => c.tag == tag)

/-! ### Model of `ET.fromstring`

A recursive-descent parser for the XML fragment the protocol uses:
elements, double-quoted attributes, text content; no comments, CDATA,
processing instructions or entity references.  `ET.fromstring` raising
`xml.etree.ElementTree.ParseError` is modelled by returning `none`. -/

def isXmlSpace (c : Char) : Bool :=
  c = ' ' || c = '\t' || c = '\n' || c = '\r'

def isNameChar (c : Char) : Bool :=
  c.isAlphanum || c = '_' || c = '-' || c = ':' || c = '.'

def skipSpace (cs : List Char) : List Char :=
  cs.dropWhile isXmlSpace

/-- Parse a run of name characters. -/
def takeName (cs : List Char) : List Char × List Char :=
  (cs.takeWhile isNameChar, cs.dropWhile isNameChar)

/-- Parse attributes up to (but not consuming) `>` or `/>`. -/
def parseAttrs : Nat → List Char → Option (List (String × String) × List Char)
  | 0, _ => none
  | fuel + 1, cs =>
    let cs := skipSpace cs
    match cs with
    | [] => none
    | c :: _ =>
      if c = '>' || c = '/' then
        some ([], cs)
      else
        match takeName cs with
        | ([], _) => none
        | (nm, rest) =>
          match rest with
          | '=' :: '\"' :: rest2 =>
            let v := rest2.takeWhile (fun c => c ≠ '\"')
            match rest2.dropWhile (fun c => c ≠ '\"') with
            | '\"' :: rest3 =>
              match parseAttrs fuel rest3 with
              | some (attrs, rest4) => some ((⟨nm⟩, ⟨v⟩) :: attrs, rest4)
              | none => none
            | _ => none
          | _ => none

mutual

/-- Parse one element starting at `<`. -/
def parseElem : Nat → List Char → Option (Element × List Char)
  | 0, _ => none
  | fuel + 1, cs =>
    match cs with
    | '<' :: cs1 =>
      match takeName cs1 with
      | ([], _) => none
      | (nm, rest) =>
        match parseAttrs fuel rest with
        | none => none
        | some (attrs, rest2) =>
          match rest2 with
          | '/' :: '>' :: rest3 => some (.mk ⟨nm⟩ attrs none [], rest3)
          | '>' :: rest3 =>
            let txt := rest3.takeWhile (fun c => c ≠ '<')
            let rest4 := rest3.dropWhile (fun c => c ≠ '<')
            match parseKids fuel rest4 with
            | none => none
            | some (kids, rest5) =>
              -- closing tag: </nm>
              match rest5 with
              | '<' :: '/' :: rest6 =>
                match takeName rest6 with
                | (nm2, rest7) =>
                  if nm2 = nm then
                    match skipSpace rest7 with
                    | '>' :: rest8 =>
                      some (.mk ⟨nm⟩ attrs
                        (if txt.isEmpty then none else some ⟨txt⟩) kids, rest8)
                    | _ => none
                  else none
              | _ => none
          | _ => none
    | _ => none

/-- Parse child elements (dropping tail text) until a `</` is seen. -/
def parseKids : Nat → List Char → Option (List Element × List Char)
  | 0, _ => none
  | fuel + 1, cs =>
    match cs with
    | '<' :: '/' :: _ => some ([], cs)
    | '<' :: _ =>
      match parseElem fuel cs with
      | none => none
      | some (kid, rest) =>
        let rest2 := rest.dropWhile (fun c => c ≠ '<')
        match parseKids fuel rest2 with
        | none => none
        | some (kids, rest3) => some (kid :: kids, rest3)
    | _ => none

end

/-- Model of `xml.etree.ElementTree.fromstring`: parse a whole document,
requiring only trailing whitespace after the root element. -/
def ET_fromstring (s : String) : Option Element :=
  match parseElem (s.length + 1) (skipSpace s.data) with
  | some (e, rest) => if (skipSpace rest).isEmpty then some e else none
  | none => none

/-! ### Error taxonomy

The exception classes of `dbgp.py`, plus the exceptions Python itself
raises on the paths the module leaves unguarded (`ET.ParseError` from
`ET.fromstring`, `AttributeError` from calling a method on `None`,
`ValueError` from `int('')`). -/

inductive DbgpException where
  /-- `DBGPError(message, code)`: the debugger returned an error message.
  `message` is the `.text` of the `<message>` child (possibly `None`);
  `code` is the raw string value of the `code` attribute. -/
  | dbgpError (message : Option String) (code : String)
  /-- `ResponseError(message, response)`: unexpected response format. -/
  | responseError (message : String) (response : String)
  /-- `WrongIDEKeyException`: session key differs from the expected one. -/
  | wrongIDEKey
  /-- `TimeoutError(message)`: no connection within the accept timeout. -/
  | timeoutError (message : String)
  /-- `EOFError(message)`: a socket read returned zero bytes. -/
  | eofError (message : String)
  /-- Python `xml.etree.ElementTree.ParseError` from `ET.fromstring`. -/
  | xmlParseError
  /-- Python `AttributeError` (method call on `None`). -/
  | attributeError
  /-- Python `ValueError` (`int('')` on an empty digit string). -/
  | valueError
deriving DecidableEq, Repr

/-! ### Response objects

`Response.__init__` stores the payload and command, then — if the raw
payload contains the substring `"<error"` — calls `__parse_error`, which
always raises.  So construction is a fallible factory: it returns either
a usable response value or a raised exception.  The subclass used
(`Response`, `StatusResponse`, `FeatureGetResponse`) is chosen by the
caller of `send_cmd` and does not change construction. -/

inductive ResCls where
  | response
  | statusResponse
  | featureGetResponse
deriving DecidableEq, Repr

structure Response where
  cls : ResCls
  response : String
  cmd : String
  cmd_args : String
deriving DecidableEq, Repr

/-- Substring search over char lists. -/
def containsSub : List Char → List Char → Bool
  | [], pat => pat.isEmpty
  | c :: rest, pat => List.isPrefixOf pat (c :: rest) || containsSub rest pat

/-- Python `pat in s` substring test. -/
def strContains (s pat : String) : Bool :=
  containsSub s.data pat.data

/-- `Response.as_xml`: parse the payload (memoization is not observable
in a pure model).  `ET.fromstring` raising is modelled by `none`. -/
def Response.as_xml (r : Response) : Option Element :=
  ET_fromstring r.response

/-- `Response.as_string`. -/
def Response.as_string (r : Response) : String :=
  r.response

/-- `Response.get_cmd`. -/
def Response.get_cmd (r : Response) : String :=
  r.cmd

/-- `Response.get_cmd_args`. -/
def Response.get_cmd_args (r : Response) : String :=
  r.cmd_args

/-- `Response.__parse_error`: parse the error out of the payload and
raise it.  Every path of this function raises, so it is modelled as
computing the exception that construction raises. -/
def parse_error_exn (response : String) : DbgpException :=
  match ET_fromstring response with
  | none => .xmlParseError
  | some xml =>
    match xml.find "error" with
    | none => .attributeError   -- err_el is None; None.get("code") raises
    | some err_el =>
      match err_el.get "code" with
      | none => .responseError "Missing error code in response" response
      | some code =>
        match err_el.find "message" with
        | none => .responseError "Missing error message in response" response
        | some msg_el => .dbgpError msg_el.textOf code

/-- `Response.__init__` (shared by all three response classes): store
the fields; if the payload contains `"<error"`, `__parse_error` raises. -/
def mkResponse (cls : ResCls) (response cmd cmd_args : String) :
    Except DbgpException Response :=
  if strContains response "<error" then
    .error (parse_error_exn response)
  else
    .ok ⟨cls, response, cmd, cmd_args⟩

/-- `StatusResponse.__str__`: the `status` attribute of the root.
(Python would raise on a malformed payload; modelled with `Option`.) -/
def Response.statusStr (r : Response) : Option String :=
  r.as_xml.bind (fun xml => xml.get "status")

/-- `FeatureGetResponse.is_supported`: `int(xml.get('supported'))`. -/
def Response.is_supported (r : Response) : Option Int :=
  r.as_xml.bind (fun xml => xml.get "supported") |>.bind String.toInt?

/-! ### Connection (transport)

The TCP socket is modelled as the byte stream it will deliver before the
peer closes (`inbuf`) together with the bytes written so far (`outbuf`).
`recv(n)` returning `''` (peer closed) is modelled by an exhausted
`inbuf`. -/

structure Sock where
  inbuf : List Char
  outbuf : List Char
deriving DecidableEq, Repr

structure Connection where
  host : String
  port : Nat
  timeout : Nat
  sock : Option Sock
  address : Option String
  isconned : Nat
deriving DecidableEq, Repr

/-- `Connection.__init__(host, port, timeout)`.  Note the source assigns
the literal `9000` to `self.port`, ignoring the `port` argument. -/
def Connection.init (host : String) (port : Nat) (timeout : Nat) : Connection :=
  { host := host, port := 9000, timeout := timeout,
    sock := none, address := none, isconned := 0 }

/-- `Connection.isconnected`. -/
def Connection.isconnected (c : Connection) : Nat :=
  c.isconned

/-- `Connection.open`: bind/listen/accept.  The accept result comes from
the operating system and is passed in explicitly: `none` models
`socket.timeout` (no peer within the window), in which case
`TimeoutError` is raised and the connection state is unchanged. -/
def Connection.openConn (c : Connection) (accepted : Option (Sock × String)) :
    Except DbgpException Connection :=
  match accepted with
  | none => .error (.timeoutError "Timeout waiting for connection")
  | some (s, addr) =>
    .ok { c with sock := some s, address := some addr, isconned := 1 }

/-- `Connection.close`: release the socket if present, clear the
connected flag.  Safe in every state. -/
def Connection.close (c : Connection) : Connection :=
  let c := if c.sock.isSome then { c with sock := none } else c
  { c with isconned := 0 }

/-- `Connection.send_msg(cmd)`: `self.sock.send(cmd + '\0')`.  Writes the
payload followed by a single NUL — no length prefix.  `none` models the
`AttributeError` raised when `self.sock` is `None`. -/
def Connection.send_msg (c : Connection) (cmd : String) : Option Connection :=
  match c.sock with
  | none => none
  | some s =>
    some { c with sock := some { s with outbuf := s.outbuf ++ cmd.data ++ [nul] } }

/-- Value of an ASCII digit character. -/
def digitVal (c : Char) : Nat :=
  c.toNat - 48

/-- `int(s)` for the digit strings `__recv_length` accumulates. -/
def digitsVal (ds : List Char) : Nat :=
  ds.foldl (fun a c => 10 * a + digitVal c) 0

/-- Result of the `__recv_length` read loop on the remaining stream. -/
inductive LenRead where
  | eof
  | valueErr (rest : List Char)
  | ok (n : Nat) (rest : List Char)
deriving DecidableEq, Repr

/-- The `__recv_length` loop: read one byte at a time; `''` means the
peer closed; a NUL terminates the prefix (`int('')` raises `ValueError`
when no digit was seen); digits accumulate; other bytes are skipped. -/
def recvLengthLoop : List Char → List Char → LenRead
  | [], _ => .eof
  | c :: rest, acc =>
    if c = nul then
      if acc.isEmpty then .valueErr rest else .ok (digitsVal acc) rest
    else if c.isDigit then recvLengthLoop rest (acc ++ [c])
    else recvLengthLoop rest acc

/-- `Connection.__recv_length`: on `''` the connection is closed before
`EOFError` is raised. -/
def Connection.recv_length (c : Connection) : Except DbgpException Nat × Connection :=
  match c.sock with
  | none => (.error .attributeError, c)
  | some s =>
    match recvLengthLoop s.inbuf [] with
    | .eof => (.error (.eofError "Socket Closed"), c.close)
    | .valueErr rest =>
      (.error .valueError, { c with sock := some { s with inbuf := rest } })
    | .ok n rest =>
      (.ok n, { c with sock := some { s with inbuf := rest } })

/-- The `__recv_null` loop: read until a NUL; `''` means peer closed. -/
def recvNullLoop : List Char → Option (List Char)
  | [] => none
  | c :: rest => if c = nul then some rest else recvNullLoop rest

/-- `Connection.__recv_null`. -/
def Connection.recv_null (c : Connection) : Except DbgpException Unit × Connection :=
  match c.sock with
  | none => (.error .attributeError, c)
  | some s =>
    match recvNullLoop s.inbuf with
    | none => (.error (.eofError "Socket Closed"), c.close)
    | some rest => (.ok (), { c with sock := some { s with inbuf := rest } })

/-- The `__recv_body` accumulation loop: `recv(to_recv)` returns at most
`to_recv` bytes (here: whatever of the stream is available, capped);
short reads are accumulated until the count is satisfied; `''` (an
exhausted stream) means the peer closed. -/
def recvBodyLoop : Nat → List Char → List Char → Option (List Char × List Char)
  | 0, inbuf, body => some (body, inbuf)
  | _ + 1, [], _ => none
  | t + 1, x :: xs, body =>
    let buf := (x :: xs).take (t + 1)
    recvBodyLoop (t + 1 - buf.length) ((x :: xs).drop (t + 1)) (body ++ buf)
termination_by t _ _ => t
decreasing_by simp [List.length_take]; omega

/-- `Connection.__recv_body(to_recv)`: when `to_recv = 0` the loop never
runs and the empty body is returned without touching the socket. -/
def Connection.recv_body (c : Connection) (to_recv : Nat) :
    Except DbgpException String × Connection :=
  if to_recv = 0 then (.ok "", c)
  else
    match c.sock with
    | none => (.error .attributeError, c)
    | some s =>
      match recvBodyLoop to_recv s.inbuf [] with
      | none => (.error (.eofError "Socket Closed"), c.close)
      | some (body, rest) =>
        (.ok ⟨body⟩, { c with sock := some { s with inbuf := rest } })

/-- `Connection.recv_msg`: length, body, trailing NUL; returns the body. -/
def Connection.recv_msg (c : Connection) : Except DbgpException String × Connection :=
  match c.recv_length with
  | (.error e, c1) => (.error e, c1)
  | (.ok len, c1) =>
    match c1.recv_body len with
    | (.error e, c2) => (.error e, c2)
    | (.ok body, c2) =>
      match c2.recv_null with
      | (.error e, c3) => (.error e, c3)
      | (.ok _, c3) => (.ok body, c3)

/-! ### Decimal length prefixes and the framed wire form -/

/-- Decimal digits of `n` (empty for 0), most significant first; the
first argument is recursion fuel (any amount `≥ n` is exact). -/
def natDigitsF : Nat → Nat → List Char
  | 0, _ => []
  | fuel + 1, n =>
    if n = 0 then [] else natDigitsF fuel (n / 10) ++ [Char.ofNat (48 + n % 10)]

/-- Decimal representation of `n` (Python `str(n)` as a char list). -/
def natToDecimal (n : Nat) : List Char :=
  if n = 0 then ['0'] else natDigitsF (n + 1) n

/-- Python `str(n)` for a natural number. -/
def natToString (n : Nat) : String :=
  ⟨natToDecimal n⟩

/-- The framed wire form of a message as the spec words it: "a decimal
ASCII length prefix, a single NUL separator, a payload of exactly that
length, and a trailing NUL".  This is the form `recv_msg` consumes (the
engine-to-IDE direction). -/
def framedForm (payload : String) : List Char :=
  natToDecimal payload.data.length ++ [nul] ++ payload.data ++ [nul]

/-! ### Api (transaction engine) -/

/-- Python `str.strip()` whitespace set. -/
def isPySpace (c : Char) : Bool :=
  c = ' ' || c = '\t' || c = '\n' || c = '\r' || c = '\x0b' || c = '\x0c'

/-- Python `str.strip()`: drop leading and trailing whitespace. -/
def pyStrip (s : String) : String :=
  ⟨((s.data.dropWhile isPySpace).reverse.dropWhile isPySpace).reverse⟩

structure Api where
  conn : Connection
  transID : Nat
  language : Option String
  protocol : Option String
  exp_idekey : Option String
  idekey : Option String
  version : Option String
  startfile : Option String
deriving DecidableEq, Repr

/-- `Api.__parse_init_msg(msg)`: parse the init announcement and fill
the Api fields; raises `ResponseError` when the root has no `language`
attribute and `WrongIDEKeyException` when an expected idekey was given
and the announced one differs. -/
def Api.parse_init_msg (api : Api) (msg : String) : Except DbgpException Api :=
  match ET_fromstring msg with
  | none => .error .xmlParseError
  | some xml =>
    match xml.get "language" with
    | none => .error (.responseError "Invalid XML response from debugger" msg)
    | some language =>
      let idekey := xml.get "idekey"
      match api.exp_idekey with
      | some expk =>
        if idekey ≠ some expk then
          .error .wrongIDEKey
        else
          .ok { api with language := some language, idekey := idekey,
                         version := xml.get "api_version",
                         startfile := xml.get "fileuri" }
      | none =>
        .ok { api with language := some language, idekey := idekey,
                       version := xml.get "api_version",
                       startfile := xml.get "fileuri" }

/-- `Api.__init__(connection, exp_idekey)`: open the connection if not
yet connected (the accept result comes from the environment), receive
the unsolicited init message and parse it.  The connection (whose state
the caller keeps on failure, since `__init__` does not close it) is
returned alongside the outcome. -/
def Api.init (connection : Connection) (exp_idekey : Option String)
    (accepted : Option (Sock × String)) :
    Connection × Except DbgpException Api :=
  let opened :=
    if connection.isconnected = 0 then connection.openConn accepted
    else .ok connection
  match opened with
  | .error e => (connection, .error e)
  | .ok conn =>
    match conn.recv_msg with
    | (.error e, conn1) => (conn1, .error e)
    | (.ok msg, conn1) =>
      let api : Api :=
        { conn := conn1, transID := 0, language := none, protocol := none,
          exp_idekey := exp_idekey, idekey := none, version := none,
          startfile := none }
      (conn1, api.parse_init_msg msg)

/-- The command line `send_cmd` composes: stripped command name, the
` -i <id>` part, and — only when the stripped argument string is
non-empty — a space and the arguments. -/
def composeSend (cmd args : String) (tid : Nat) : String :=
  pyStrip cmd ++ " -i " ++ natToString tid ++
    (if (pyStrip args).length > 0 then " " ++ pyStrip args else "")

/-- `Api.send_cmd(cmd, args, res_cls)`: strip both strings, allocate the
next transaction id, compose and send the command, block for exactly one
message, and construct the caller-selected response class over it.  The
updated Api (its id counter advances even when an exception propagates)
is returned alongside the outcome. -/
def Api.send_cmd (api : Api) (cmd : String) (args : String) (res_cls : ResCls) :
    Api × Except DbgpException Response :=
  let tid := api.transID + 1
  let send := composeSend cmd args tid
  let api := { api with transID := tid }
  match api.conn.send_msg send with
  | none => (api, .error .attributeError)   -- self.sock is None
  | some conn =>
    match conn.recv_msg with
    | (.error e, conn1) => ({ api with conn := conn1 }, .error e)
    | (.ok msg, conn1) =>
      ({ api with conn := conn1 }, mkResponse res_cls msg cmd (pyStrip args))

/-- Run a sequence of `send_cmd` calls, threading the Api state. -/
def Api.runCmds (api : Api) : List (String × String × ResCls) → Api
  | [] => api
  | (cmd, args, cls) :: rest => ((api.send_cmd cmd args cls).1).runCmds rest

/-- The byte stream of several engine messages, each in framed form. -/
def framesOf (msgs : List String) : List Char :=
  (msgs.map framedForm).flatten

/-- The bytes `send_cmd` writes for a command list when the transaction
counter starts at `t`: the composed command lines with ids
`t+1, t+2, ...`, each followed by a NUL. -/
def sentBytes (t : Nat) : List (String × String × ResCls) → List Char
  | [] => []
  | (cmd, args, _) :: rest =>
    (composeSend cmd args (t + 1)).data ++ [nul] ++ sentBytes (t + 1) rest

/-! ### Lemmas: decimal digits -/

theorem digitChar_isDigit (d : Nat) (h : d < 10) :
    (Char.ofNat (48 + d)).isDigit = true := by
  interval_cases d <;> decide

theorem digitVal_digitChar (d : Nat) (h : d < 10) :
    digitVal (Char.ofNat (48 + d)) = d := by
  unfold digitVal; interval_cases d <;> decide

theorem natDigitsF_all_digit :
    ∀ fuel n c, c ∈ natDigitsF fuel n → c.isDigit = true := by
  intro fuel
  induction fuel with
  | zero => intro n c hc; simp [natDigitsF] at hc
  | succ fuel ih =>
    intro n c hc
    by_cases hn : n = 0
    · simp [natDigitsF, hn] at hc
    · simp only [natDigitsF, if_neg hn, List.mem_append, List.mem_singleton] at hc
      rcases hc with hc | hc
      · exact ih _ _ hc
      · subst hc; exact digitChar_isDigit _ (Nat.mod_lt _ (by omega))

theorem digitsVal_append (xs : List Char) (c : Char) :
    digitsVal (xs ++ [c]) = 10 * digitsVal xs + digitVal c := by
  simp [digitsVal, List.foldl_append]

theorem digitsVal_natDigitsF :
    ∀ fuel n, n ≤ fuel → digitsVal (natDigitsF fuel n) = n := by
  intro fuel
  induction fuel with
  | zero => intro n hn; interval_cases n; simp [natDigitsF, digitsVal]
  | succ fuel ih =>
    intro n hn
    by_cases hn0 : n = 0
    · simp [natDigitsF, hn0, digitsVal]
    · rw [natDigitsF, if_neg hn0, digitsVal_append,
          ih (n / 10) (by omega),
          digitVal_digitChar _ (Nat.mod_lt _ (by omega))]
      omega

theorem natToDecimal_all_digit (n : Nat) :
    ∀ c ∈ natToDecimal n, c.isDigit = true := by
  intro c hc
  unfold natToDecimal at hc
  by_cases hn : n = 0
  · simp [hn] at hc; subst hc; decide
  · rw [if_neg hn] at hc; exact natDigitsF_all_digit _ _ _ hc

theorem natToDecimal_ne_nil (n : Nat) : natToDecimal n ≠ [] := by
  unfold natToDecimal
  by_cases hn : n = 0
  · simp [hn]
  · rw [if_neg hn]
    cases n with
    | zero => exact absurd rfl hn
    | succ m =>
      simp only [natDigitsF, Nat.succ_ne_zero, if_neg]
      simp

theorem digitsVal_natToDecimal (n : Nat) : digitsVal (natToDecimal n) = n := by
  unfold natToDecimal
  by_cases hn : n = 0
  · simp [hn, digitsVal, digitVal]
  · rw [if_neg hn]; exact digitsVal_natDigitsF _ _ (by omega)

/-! ### Lemmas: the receive loops on framed input -/

theorem nul_not_digit : nul.isDigit = false := by decide

theorem recvLengthLoop_digits :
    ∀ (ds : List Char), (∀ c ∈ ds, c.isDigit = true) →
    ∀ acc tail, recvLengthLoop (ds ++ nul :: tail) acc =
      if (acc ++ ds).isEmpty then .valueErr tail
      else .ok (digitsVal (acc ++ ds)) tail := by
  intro ds
  induction ds with
  | nil =>
    intro _ acc tail
    simp [recvLengthLoop]
  | cons c ds ih =>
    intro hds acc tail
    have hc : c.isDigit = true := hds c (by simp)
    have hcnul : ¬(c = nul) := by
      intro h; rw [h] at hc; exact absurd hc (by decide)
    have := ih (fun x hx => hds x (by simp [hx])) (acc ++ [c]) tail
    simp only [List.cons_append, recvLengthLoop, if_neg hcnul, hc, if_pos,
      List.append_eq] at this ⊢
    rw [this]
    simp [List.append_assoc]

theorem recv_length_frame (c : Connection) (n : Nat) (tail out : List Char)
    (h : c.sock = some ⟨natToDecimal n ++ nul :: tail, out⟩) :
    c.recv_length = (.ok n, { c with sock := some ⟨tail, out⟩ }) := by
  have hloop := recvLengthLoop_digits (natToDecimal n) (natToDecimal_all_digit n) [] tail
  simp only [List.nil_append, List.isEmpty_iff, natToDecimal_ne_nil n, if_false,
    digitsVal_natToDecimal] at hloop
  obtain ⟨ho, po, ti, so, ad, co⟩ := c
  simp only at h
  subst h
  simp [Connection.recv_length, hloop]

theorem recvBodyLoop_exact :
    ∀ (payload rest body : List Char),
      recvBodyLoop payload.length (payload ++ rest) body = some (body ++ payload, rest) := by
  intro payload rest body
  match payload with
  | [] => simp [recvBodyLoop]
  | x :: xs =>
    have h1 : ((x :: xs) ++ rest).take (x :: xs).length = x :: xs := List.take_left _ _
    have h2 : ((x :: xs) ++ rest).drop (x :: xs).length = rest := List.drop_left _ _
    simp only [List.cons_append, List.length_cons] at h1 h2 ⊢
    rw [recvBodyLoop, h1, h2]
    simp [recvBodyLoop]

theorem recv_body_frame (c : Connection) (payload tail out : List Char)
    (h : c.sock = some ⟨payload ++ tail, out⟩) :
    c.recv_body payload.length =
      (.ok ⟨payload⟩, { c with sock := some ⟨tail, out⟩ }) := by
  obtain ⟨ho, po, ti, so, ad, co⟩ := c
  simp only at h
  subst h
  by_cases hp : payload = []
  · subst hp
    simp [Connection.recv_body]
  · have hlen : ¬(payload.length = 0) := by simp [hp]
    simp [Connection.recv_body, if_neg hlen, recvBodyLoop_exact payload tail [], hp]

theorem recv_null_frame (c : Connection) (tail out : List Char)
    (h : c.sock = some ⟨nul :: tail, out⟩) :
    c.recv_null = (.ok (), { c with sock := some ⟨tail, out⟩ }) := by
  obtain ⟨ho, po, ti, so, ad, co⟩ := c
  simp only at h
  subst h
  simp [Connection.recv_null, recvNullLoop]

/-- `recv_msg` consumes exactly one framed message from the stream and
returns its payload. -/
theorem recv_msg_frame (c : Connection) (m : String) (rest out : List Char)
    (h : c.sock = some ⟨framedForm m ++ rest, out⟩) :
    c.recv_msg = (.ok m, { c with sock := some ⟨rest, out⟩ }) := by
  have hframe : framedForm m ++ rest =
      natToDecimal m.data.length ++ nul :: (m.data ++ nul :: rest) := by
    simp [framedForm, List.append_assoc]
  rw [hframe] at h
  obtain ⟨ho, po, ti, so, ad, co⟩ := c
  simp only at h
  subst h
  have hlen := recv_length_frame ⟨ho, po, ti, some ⟨natToDecimal m.data.length ++
      nul :: (m.data ++ nul :: rest), out⟩, ad, co⟩ m.data.length (m.data ++ nul :: rest) out rfl
  have hbody := recv_body_frame ⟨ho, po, ti, some ⟨m.data ++ nul :: rest, out⟩, ad, co⟩
      m.data (nul :: rest) out rfl
  have hnull := recv_null_frame ⟨ho, po, ti, some ⟨nul :: rest, out⟩, ad, co⟩ rest out rfl
  simp only at hlen hbody hnull
  simp only [show m.data.length = m.length from rfl] at hlen hbody
  simp [Connection.recv_msg, hlen, hbody, hnull]

/-! ### Lemmas: closing, and end-of-stream forcing a close -/

theorem close_eq (c : Connection) :
    c.close = { c with sock := none, isconned := 0 } := by
  obtain ⟨ho, po, ti, so, ad, co⟩ := c
  cases so <;> simp [Connection.close]

theorem recv_length_eof (c : Connection) (e : String) (c' : Connection)
    (h : c.recv_length = (.error (.eofError e), c')) : c' = c.close := by
  obtain ⟨ho, po, ti, so, ad, co⟩ := c
  cases so with
  | none => simp [Connection.recv_length] at h
  | some s =>
    simp only [Connection.recv_length] at h
    cases hl : recvLengthLoop s.inbuf [] with
    | eof => rw [hl] at h; simp at h; exact h.2.symm
    | valueErr rest => rw [hl] at h; simp at h
    | ok n rest => rw [hl] at h; simp at h

theorem recv_body_eof (c : Connection) (len : Nat) (e : String) (c' : Connection)
    (h : c.recv_body len = (.error (.eofError e), c')) : c' = c.close := by
  unfold Connection.recv_body at h
  by_cases h0 : len = 0
  · rw [if_pos h0] at h; simp at h
  · rw [if_neg h0] at h
    obtain ⟨ho, po, ti, so, ad, co⟩ := c
    cases so with
    | none => simp at h
    | some s =>
      simp only at h
      cases hl : recvBodyLoop len s.inbuf [] with
      | none => rw [hl] at h; simp at h; exact h.2.symm
      | some p => rw [hl] at h; simp at h

theorem recv_null_eof (c : Connection) (e : String) (c' : Connection)
    (h : c.recv_null = (.error (.eofError e), c')) : c' = c.close := by
  obtain ⟨ho, po, ti, so, ad, co⟩ := c
  cases so with
  | none => simp [Connection.recv_null] at h
  | some s =>
    simp only [Connection.recv_null] at h
    cases hl : recvNullLoop s.inbuf with
    | none => rw [hl] at h; simp at h; exact h.2.symm
    | some rest => rw [hl] at h; simp at h

/-- Whenever `recv_msg` raises the end-of-stream error, the connection it
leaves behind is closed. -/
theorem recv_msg_eof_closed (c : Connection) (e : String) (c' : Connection)
    (h : c.recv_msg = (.error (.eofError e), c')) :
    c'.sock = none ∧ c'.isconned = 0 := by
  unfold Connection.recv_msg at h
  cases h1 : c.recv_length with
  | mk r1 c1 =>
    rw [h1] at h
    cases r1 with
    | error err =>
      simp at h
      obtain ⟨herr, hc⟩ := h
      have : c1 = c.close := recv_length_eof c e c1 (by rw [h1, herr])
      subst hc this
      simp [close_eq]
    | ok len =>
      simp only at h
      cases h2 : c1.recv_body len with
      | mk r2 c2 =>
        rw [h2] at h
        cases r2 with
        | error err =>
          simp at h
          obtain ⟨herr, hc⟩ := h
          have : c2 = c1.close := recv_body_eof c1 len e c2 (by rw [h2, herr])
          subst hc this
          simp [close_eq]
        | ok body =>
          simp only at h
          cases h3 : c2.recv_null with
          | mk r3 c3 =>
            rw [h3] at h
            cases r3 with
            | error err =>
              simp at h
              obtain ⟨herr, hc⟩ := h
              have : c3 = c2.close := recv_null_eof c2 e c3 (by rw [h3, herr])
              subst hc this
              simp [close_eq]
            | ok u => simp at h

/-! ### Lemmas: send_cmd and sequences of commands -/

/-- One `send_cmd` call over a connection whose stream starts with a
framed message: the composed command (with the freshly allocated id) and
a NUL are written, exactly one message is consumed, and the response is
constructed from it with the caller-selected class. -/
theorem send_cmd_spec (api : Api) (cmd args : String) (cls : ResCls)
    (m : String) (rest out : List Char)
    (h : api.conn.sock = some ⟨framedForm m ++ rest, out⟩) :
    api.send_cmd cmd args cls =
      ({ api with
          transID := api.transID + 1
          conn := { api.conn with sock := some (Sock.mk rest
            (out ++ (composeSend cmd args (api.transID + 1)).data ++ [nul])) } },
       mkResponse cls m cmd (pyStrip args)) := by
  obtain ⟨⟨ho, po, ti, so, ad, co⟩, tid, lang, proto, expk, idek, ver, sf⟩ := api
  simp only at h
  subst h
  have hrecv := recv_msg_frame
    ⟨ho, po, ti, some ⟨framedForm m ++ rest,
        out ++ (composeSend cmd args (tid + 1)).data ++ [nul]⟩, ad, co⟩
    m rest (out ++ (composeSend cmd args (tid + 1)).data ++ [nul]) rfl
  simp only [List.append_assoc] at hrecv
  simp [Api.send_cmd, Connection.send_msg, hrecv]

/-- Running a command list against a stream holding one framed response
per command: every composed command line (with ids allocated in order
starting above the current counter) is written, each followed by a NUL,
and the counter advances by the number of commands. -/
theorem runCmds_frames :
    ∀ (cmds : List (String × String × ResCls)) (msgs : List String)
      (api : Api) (out : List Char),
      msgs.length = cmds.length →
      api.conn.sock = some ⟨framesOf msgs, out⟩ →
      (api.runCmds cmds).conn.sock = some ⟨[], out ++ sentBytes api.transID cmds⟩ ∧
      (api.runCmds cmds).transID = api.transID + cmds.length := by
  intro cmds
  induction cmds with
  | nil =>
    intro msgs api out hlen h
    cases msgs with
    | nil =>
      simp only [framesOf, List.map_nil, List.flatten_nil] at h
      simp [Api.runCmds, h, sentBytes]
    | cons m ms => simp at hlen
  | cons hd tl ih =>
    obtain ⟨cmd, args, cls⟩ := hd
    intro msgs api out hlen h
    cases msgs with
    | nil => simp at hlen
    | cons m ms =>
      have hf : framesOf (m :: ms) = framedForm m ++ framesOf ms := by
        simp [framesOf]
      rw [hf] at h
      have hstep := send_cmd_spec api cmd args cls m (framesOf ms) out h
      have h1 : Api.runCmds api ((cmd, args, cls) :: tl) =
          Api.runCmds
            { api with
              transID := api.transID + 1
              conn := { api.conn with sock := some (Sock.mk (framesOf ms)
                (out ++ (composeSend cmd args (api.transID + 1)).data ++ [nul])) } } tl := by
        rw [Api.runCmds, hstep]
      rw [h1]
      obtain ⟨hA, hB⟩ := ih ms
        { api with
          transID := api.transID + 1
          conn := { api.conn with sock := some (Sock.mk (framesOf ms)
            (out ++ (composeSend cmd args (api.transID + 1)).data ++ [nul])) } }
        (out ++ (composeSend cmd args (api.transID + 1)).data ++ [nul])
        (by simpa using hlen) rfl
      simp only at hA hB
      refine ⟨?_, ?_⟩
      · rw [hA]
        simp [sentBytes, List.append_assoc]
      · rw [hB]
        simp only [List.length_cons]
        omega

/-- `sentBytes` unrolled: the transaction ids embedded in the sent
command lines are consecutive, `t+1, t+2, ...`. -/
theorem sentBytes_eq_zip :
    ∀ (cmds : List (String × String × ResCls)) (t : Nat),
      sentBytes t cmds =
        (List.zipWith (fun i x => (composeSend x.1 x.2.1 i).data ++ [nul])
          (List.range' (t + 1) cmds.length) cmds).flatten := by
  intro cmds
  induction cmds with
  | nil => intro t; simp [sentBytes]
  | cons hd tl ih =>
    intro t
    obtain ⟨cmd, args, cls⟩ := hd
    rw [sentBytes]
    simp only [List.length_cons, List.range'_succ, List.zipWith_cons_cons,
      List.flatten_cons]
    rw [ih (t + 1)]

/-! ### Claim theorems -/

/-- C1: constructing a Response (of any response class, for any command)
over a payload containing an `<error>` element with a numeric code and a
message child raises `DBGPError` carrying that code and message — the
construction never returns a value, so no command-specific accessor can
be evaluated first; a payload without the error marker yields a usable
Response whose accessors work. -/
theorem claim_C1_error_precedence :
    (∀ (cls : ResCls) (cmd args payload : String) (xml err_el msg_el : Element)
       (code : String),
       strContains payload "<error" = true →
       ET_fromstring payload = some xml →
       xml.find "error" = some err_el →
       err_el.get "code" = some code →
       err_el.find "message" = some msg_el →
       mkResponse cls payload cmd args = .error (.dbgpError msg_el.textOf code)) ∧
    (∀ (cls : ResCls) (cmd args payload : String),
       strContains payload "<error" = false →
       mkResponse cls payload cmd args = .ok ⟨cls, payload, cmd, args⟩ ∧
       Response.as_string ⟨cls, payload, cmd, args⟩ = payload ∧
       Response.get_cmd ⟨cls, payload, cmd, args⟩ = cmd) := by
  refine ⟨?_, ?_⟩
  · intro cls cmd args payload xml err_el msg_el code h1 h2 h3 h4 h5
    simp [mkResponse, h1, parse_error_exn, h2, h3, h4, h5]
  · intro cls cmd args payload h1
    simp [mkResponse, h1, Response.as_string, Response.get_cmd]

/-- Witness for C1 at a concrete error payload and a concrete non-error
payload. -/
theorem claim_C1_witness :
    mkResponse .statusResponse
      "<response><error code=\"5\"><message>bad</message></error></response>"
      "status" "" = .error (.dbgpError (some "bad") "5") ∧
    mkResponse .response "<response status=\"starting\"/>" "status" "" =
      .ok ⟨.response, "<response status=\"starting\"/>", "status", ""⟩ :=
  ⟨claim_C1_error_precedence.1 .statusResponse "status" ""
      "<response><error code=\"5\"><message>bad</message></error></response>"
      _ _ _ _ rfl rfl rfl rfl rfl,
   (claim_C1_error_precedence.2 .response "status" ""
      "<response status=\"starting\"/>" rfl).1⟩

/-- C8: when an error marker is present but the `<error>` element lacks a
`code` attribute, or lacks a `<message>` child, construction raises
`ResponseError` (with the corresponding message and the raw payload),
which is a different exception constructor from `DBGPError`. -/
theorem claim_C8_malformed_error :
    (∀ (cls : ResCls) (cmd args payload : String) (xml err_el : Element),
       strContains payload "<error" = true →
       ET_fromstring payload = some xml →
       xml.find "error" = some err_el →
       (err_el.get "code" = none →
          mkResponse cls payload cmd args =
            .error (.responseError "Missing error code in response" payload)) ∧
       (∀ code, err_el.get "code" = some code → err_el.find "message" = none →
          mkResponse cls payload cmd args =
            .error (.responseError "Missing error message in response" payload))) ∧
    (∀ m r m2 c2, DbgpException.responseError m r ≠ DbgpException.dbgpError m2 c2) := by
  refine ⟨?_, ?_⟩
  · intro cls cmd args payload xml err_el h1 h2 h3
    refine ⟨?_, ?_⟩
    · intro h4
      simp [mkResponse, h1, parse_error_exn, h2, h3, h4]
    · intro code h4 h5
      simp [mkResponse, h1, parse_error_exn, h2, h3, h4, h5]
  · intro m r m2 c2
    simp

/-- Witness for C8: a payload whose error element has no code, and one
whose error element has a code but no message child. -/
theorem claim_C8_witness :
    mkResponse .response "<response><error><message>m</message></error></response>"
        "run" "" =
      .error (.responseError "Missing error code in response"
        "<response><error><message>m</message></error></response>") ∧
    mkResponse .response "<response><error code=\"3\"></error></response>" "run" "" =
      .error (.responseError "Missing error message in response"
        "<response><error code=\"3\"></error></response>") :=
  ⟨(claim_C8_malformed_error.1 .response "run" ""
      "<response><error><message>m</message></error></response>"
      _ _ rfl rfl rfl).1 rfl,
   (claim_C8_malformed_error.1 .response "run" ""
      "<response><error code=\"3\"></error></response>"
      _ _ rfl rfl rfl).2 "3" rfl rfl⟩

/-- C2 counterexample: `send_msg "hi"` writes the two payload bytes and a
single NUL — not the framed form (decimal length, NUL, payload, NUL). -/
theorem claim_C2_counterexample :
    Connection.send_msg ⟨"", 9000, 30, some ⟨[], []⟩, none, 1⟩ "hi" =
      some ⟨"", 9000, 30, some ⟨[], ['h', 'i', nul]⟩, none, 1⟩ ∧
    ['h', 'i', nul] ≠ framedForm "hi" := by
  exact ⟨rfl, by decide⟩

/-- C2 (amended): for every payload, `send_msg` writes exactly the
payload followed by one trailing NUL byte — no length prefix and no
separator NUL. -/
theorem claim_C2_amended (c : Connection) (s : Sock) (cmd : String)
    (h : c.sock = some s) :
    c.send_msg cmd =
      some { c with sock := some ⟨s.inbuf, s.outbuf ++ cmd.data ++ [nul]⟩ } := by
  obtain ⟨ho, po, ti, so, ad, co⟩ := c
  simp only at h
  subst h
  simp [Connection.send_msg]

/-- Witness for C2 (amended) at a concrete command. -/
theorem claim_C2_witness :
    Connection.send_msg ⟨"", 9000, 30, some ⟨[], []⟩, none, 1⟩ "run -i 1" =
      some ⟨"", 9000, 30, some ⟨[], ("run -i 1").data ++ [nul]⟩, none, 1⟩ :=
  claim_C2_amended _ _ _ rfl

/-- C3 counterexample: the NUL-free payload `"a"` does not survive a
`send_msg`/`recv_msg` round trip: `send_msg` writes `a NUL`, and
`recv_msg` on that stream fails with `ValueError` (from `int('')`)
instead of returning `"a"`. -/
theorem claim_C3_counterexample :
    Connection.send_msg ⟨"", 9000, 30, some ⟨[], []⟩, none, 1⟩ "a" =
      some ⟨"", 9000, 30, some ⟨[], ['a', nul]⟩, none, 1⟩ ∧
    (Connection.recv_msg ⟨"", 9000, 30, some ⟨['a', nul], []⟩, none, 1⟩).1 =
      .error .valueError := by
  exact ⟨rfl, rfl⟩

/-- C3 (amended): the round trip holds for the length-prefixed framing
that `recv_msg` implements: for every payload, receiving from a stream
that holds the framed form (decimal ASCII length, NUL, payload, NUL)
yields the original payload exactly and consumes exactly that frame.
`send_msg` itself does not produce this framing. -/
theorem claim_C3_amended (c : Connection) (payload : String) (rest out : List Char)
    (h : c.sock = some ⟨framedForm payload ++ rest, out⟩) :
    c.recv_msg = (.ok payload, { c with sock := some ⟨rest, out⟩ }) :=
  recv_msg_frame c payload rest out h

/-- Witness for C3 (amended) at a concrete framed payload. -/
theorem claim_C3_witness :
    Connection.recv_msg
        ⟨"", 9000, 30, some ⟨framedForm "<init/>" ++ ['x'], []⟩, none, 1⟩ =
      (.ok "<init/>", ⟨"", 9000, 30, some ⟨['x'], []⟩, none, 1⟩) :=
  claim_C3_amended _ "<init/>" ['x'] [] rfl

/-- C4: starting from a fresh Api (counter at 0), running N `send_cmd`
calls embeds the transaction ids `1, 2, ..., N` — `List.range' 1 N` — in
the sent command lines, in order, with no repeats or gaps, and leaves
the counter at N. -/
theorem claim_C4_transaction_ids (cmds : List (String × String × ResCls))
    (msgs : List String) (api : Api)
    (hlen : msgs.length = cmds.length)
    (hid : api.transID = 0)
    (hsock : api.conn.sock = some ⟨framesOf msgs, []⟩) :
    (api.runCmds cmds).conn.sock = some ⟨[],
      (List.zipWith (fun i x => (composeSend x.1 x.2.1 i).data ++ [nul])
        (List.range' 1 cmds.length) cmds).flatten⟩ ∧
    (api.runCmds cmds).transID = cmds.length := by
  obtain ⟨hA, hB⟩ := runCmds_frames cmds msgs api [] hlen hsock
  rw [hid] at hA hB
  refine ⟨?_, by simpa using hB⟩
  rw [hA, sentBytes_eq_zip]
  simp

/-- Witness for C4: two commands on a fresh Api get ids 1 and 2. -/
theorem claim_C4_witness :
    (Api.runCmds
      ⟨⟨"", 9000, 30,
        some ⟨framesOf ["<response status=\"starting\"/>",
                        "<response status=\"running\"/>"], []⟩, none, 1⟩,
       0, none, none, none, none, none, none⟩
      [("status", "", .statusResponse), ("run", "", .statusResponse)]).transID = 2 :=
  (claim_C4_transaction_ids
    [("status", "", .statusResponse), ("run", "", .statusResponse)]
    ["<response status=\"starting\"/>", "<response status=\"running\"/>"]
    ⟨⟨"", 9000, 30,
      some ⟨framesOf ["<response status=\"starting\"/>",
                      "<response status=\"running\"/>"], []⟩, none, 1⟩,
     0, none, none, none, none, none, none⟩ rfl rfl rfl).2

/-- C5: `send_cmd` strips surrounding whitespace from the command and
argument strings, allocates the next transaction id `i`, writes exactly
`"<name> -i <i> <args>"` (the args segment, including its leading space,
omitted entirely when the stripped args are empty) followed by the
transport's NUL, consumes exactly one received message, and constructs
the caller-selected response class over it. -/
theorem claim_C5_send_cmd_contract (api : Api) (cmd args : String) (cls : ResCls)
    (m : String) (rest out : List Char)
    (h : api.conn.sock = some ⟨framedForm m ++ rest, out⟩) :
    api.send_cmd cmd args cls =
      ({ api with
          transID := api.transID + 1
          conn := { api.conn with sock := some (Sock.mk rest (out ++
            (pyStrip cmd ++ " -i " ++ natToString (api.transID + 1) ++
              (if (pyStrip args).length > 0 then " " ++ pyStrip args else "")).data
            ++ [nul])) } },
       mkResponse cls m cmd (pyStrip args)) :=
  send_cmd_spec api cmd args cls m rest out h

/-- Witness for C5: `" status "` with blank args composes `status -i 1`
with the args segment omitted. -/
theorem claim_C5_witness :
    Api.send_cmd
      ⟨⟨"", 9000, 30, some ⟨framedForm "<response status=\"break\"/>", []⟩, none, 1⟩,
       0, none, none, none, none, none, none⟩
      " status " "  " .statusResponse =
      (⟨⟨"", 9000, 30, some ⟨[], ("status -i 1").data ++ [nul]⟩, none, 1⟩,
        1, none, none, none, none, none, none⟩,
       mkResponse .statusResponse "<response status=\"break\"/>" " status " "") :=
  claim_C5_send_cmd_contract _ " status " "  " .statusResponse
    "<response status=\"break\"/>" [] [] rfl

/-- C6: whenever `recv_msg` raises the end-of-stream condition
(`EOFError`, from any of the three sequential reads receiving zero
bytes), the connection it leaves behind is closed: the socket handle is
released and the connected flag is cleared. -/
theorem claim_C6_eof_closes (c : Connection) (e : String) (c' : Connection)
    (h : c.recv_msg = (.error (.eofError e), c')) :
    c'.sock = none ∧ c'.isconned = 0 :=
  recv_msg_eof_closed c e c' h

/-- Witness for C6: a stream that ends inside the length prefix. -/
theorem claim_C6_witness :
    (⟨"", 9000, 30, none, none, 0⟩ : Connection).sock = none ∧
    (⟨"", 9000, 30, none, none, 0⟩ : Connection).isconned = 0 :=
  claim_C6_eof_closes ⟨"", 9000, 30, some ⟨['1'], []⟩, none, 1⟩ "Socket Closed"
    ⟨"", 9000, 30, none, none, 0⟩ rfl

/-- C7: for an Api constructed with an expected idekey over an open
connection, a mismatching announced idekey makes construction fail with
`WrongIDEKeyException` while the connection stays open (flag still set,
socket still held, positioned after the init message); a matching idekey
raises no such error. -/
theorem claim_C7_wrong_idekey (conn : Connection) (expk : String) (msg : String)
    (xml : Element) (lang : String) (rest out : List Char)
    (accepted : Option (Sock × String))
    (hconned : conn.isconned = 1)
    (hsock : conn.sock = some ⟨framedForm msg ++ rest, out⟩)
    (hxml : ET_fromstring msg = some xml)
    (hlang : xml.get "language" = some lang) :
    (Api.init conn (some expk) accepted).1.isconned = 1 ∧
    (Api.init conn (some expk) accepted).1.sock = some ⟨rest, out⟩ ∧
    (xml.get "idekey" ≠ some expk ↔
      (Api.init conn (some expk) accepted).2 = .error .wrongIDEKey) := by
  have hrecv := recv_msg_frame conn msg rest out hsock
  by_cases hid : xml.get "idekey" = some expk
  · simp [Api.init, Connection.isconnected, hconned, hrecv, Api.parse_init_msg,
      hxml, hlang, hid]
  · simp [Api.init, Connection.isconnected, hconned, hrecv, Api.parse_init_msg,
      hxml, hlang, hid]

/-- Witness for C7: announced idekey `other` against expected `x`. -/
theorem claim_C7_witness :
    (Api.init
      ⟨"", 9000, 30,
       some ⟨framedForm "<init language=\"python\" idekey=\"other\"/>", []⟩,
       none, 1⟩ (some "x") none).2 = .error .wrongIDEKey ∧
    (Api.init
      ⟨"", 9000, 30,
       some ⟨framedForm "<init language=\"python\" idekey=\"other\"/>", []⟩,
       none, 1⟩ (some "x") none).1.isconned = 1 :=
  have h := claim_C7_wrong_idekey
    ⟨"", 9000, 30,
     some ⟨framedForm "<init language=\"python\" idekey=\"other\"/>", []⟩,
     none, 1⟩ "x" "<init language=\"python\" idekey=\"other\"/>" _ "python"
    [] [] none rfl rfl rfl rfl
  ⟨h.2.2.mp (by decide), h.1⟩

/-- C9: `close` is idempotent and safe in every state: on any
connection — open, half-open or already closed — it releases the socket
handle, clears the connected flag, and composing it with itself equals a
single close. -/
theorem claim_C9_close_idempotent (c : Connection) :
    c.close.sock = none ∧ c.close.isconned = 0 ∧ c.close.close = c.close := by
  simp [close_eq]

/-- C10: the constructor stores host and timeout as given but assigns
the literal 9000 to the port field, ignoring the port argument. -/
theorem claim_C10_port_hardcoded (host : String) (port timeout : Nat) :
    (Connection.init host port timeout).port = 9000 ∧
    (Connection.init host port timeout).host = host ∧
    (Connection.init host port timeout).timeout = timeout :=
  ⟨rfl, rfl, rfl⟩

end Dbgp
